import Mathlib

/-!
Shallow embedding of the Solana AI assistant browser extension
(background service worker plus the content-script transcript logic).

The background worker keeps a singleton assistant whose mutable fields are
modelled by the structure AState below.  External effects are made explicit:
one discovery attempt against the MCP tool service is an MCPAttempt value,
a model call is represented by the GenRequest the code builds together with
an oracle response of type Except String (Option (List ResponsePart)), and a tool
invocation is an oracle function from tool name and arguments to
Except String String.  A success payload of a tool call is modelled by the
string its JSON serialization produces.  The numeric generation parameters
(temperature, maxTokens) are floating-point/number passthroughs the modelled
logic never inspects, so they are omitted from the embedding.
-/

/-- Role of a transcript turn (ChatMessage.role in the source). -/
inductive Role where
  | user
  | assistant
  deriving DecidableEq, Repr

/-- One turn of the persisted conversation transcript. -/
structure ChatMessage where
  role : Role
  content : String
  deriving DecidableEq, Repr

/-- A tool-call request produced by the model (part.functionCall):
tool name plus its arguments, modelled by their serialized form. -/
structure FunctionCall where
  name : String
  args : String
  deriving DecidableEq, Repr

/-- One content part of a model response: an optional text field and an
optional function-call field, mirroring the SDK response shape. -/
structure ResponsePart where
  text : Option String := none
  functionCall : Option FunctionCall := none
  deriving DecidableEq, Repr

/-- Builds a text-only part. -/
def ResponsePart.mkText (t : String) : ResponsePart := { text := some t }

/-- One turn in the alternating-turn format sent to the model:
a role string together with a list of parts. -/
structure GenContent where
  role : String
  parts : List ResponsePart
  deriving DecidableEq, Repr

/-- One Gemini function declaration produced by the tool conversion.
The properties object is opaque structured data, modelled by its
serialized form. -/
structure FunctionDeclaration where
  name : String
  description : String
  propertiesJson : String
  required : List String
  deriving DecidableEq, Repr

/-- The converted tool schema.  The source wraps the declarations in a
one-element array; that constant wrapper is flattened into this record. -/
structure GeminiTools where
  functionDeclarations : List FunctionDeclaration
  deriving DecidableEq, Repr

/-- The input schema of a discovered MCP tool (both fields optional). -/
structure InputSchema where
  properties : Option String
  required : Option (List String)
  deriving DecidableEq, Repr

/-- A tool descriptor as returned by MCP discovery. -/
structure MCPTool where
  name : String
  description : Option String
  inputSchema : InputSchema
  deriving DecidableEq, Repr

/-- The persisted settings.  Unset keys are already replaced by their
defaults, as loadSettings does. -/
structure Settings where
  geminiApiKey : String
  mcpUrl : String
  geminiModel : String
  responseLanguage : String
  deriving DecidableEq, Repr

/-- The assistant singleton state: nullable SDK handles are modelled by
Booleans (field is true exactly when the handle is non-null), nullable
data by Option. -/
structure AState where
  settings : Settings
  genAI : Bool
  mcpClient : Bool
  mcpTools : Option (List MCPTool)
  geminiTools : Option GeminiTools
  deriving DecidableEq, Repr

/-- A request to the model service: model identifier, optional tool schema,
and the ordered list of turns.  In the source a null tools field and an
absent tools field are both modelled by none. -/
structure GenRequest where
  model : String
  tools : Option GeminiTools
  contents : List GenContent
  deriving DecidableEq, Repr

/-- One entry of the toolResults array: on success the result field is set,
on failure the error field carries the failure message. -/
structure ToolResultEntry where
  tool : String
  result : Option String
  error : Option String
  deriving DecidableEq, Repr

/-- The value chatWithTransaction resolves with. -/
structure ChatResponse where
  response : String
  toolCalls : List FunctionCall
  toolResults : List ToolResultEntry
  deriving DecidableEq, Repr

/-- The value generateTransactionSummary resolves with. -/
structure TransactionSummaryResponse where
  summary : String
  toolCalls : List FunctionCall
  toolResults : List ToolResultEntry
  deriving DecidableEq, Repr

/-- Outcome of one discovery attempt against the tool service.
transportFail: building the URL/transport throws, before the client handle
is assigned.  connectFail / listFail: the connect or listTools step throws,
after the client handle is assigned.  ok: listTools returns a tool list. -/
inductive MCPAttempt where
  | transportFail
  | connectFail
  | listFail
  | ok (tools : List MCPTool)
  deriving DecidableEq, Repr

/-- Observable trace of one chat exchange: every model request issued in
order, every tool call invoked in order, and whether the tool service was
contacted by the lazy discovery step. -/
structure ChatTrace where
  modelRequests : List GenRequest
  toolInvocations : List FunctionCall
  mcpContacted : Bool
  deriving DecidableEq, Repr

/-- Observable trace of one summarize operation. -/
structure SummaryTrace where
  modelRequests : List GenRequest
  deriving DecidableEq, Repr

/-- JS role-string of a transcript turn, as interpolated into the chat
prompt template. -/
def roleString : Role → String
  | Role.user => "user"
  | Role.assistant => "assistant"

/-- Serialization of the conversation history inside the chat prompt:
one role-prefixed line per turn, joined by newlines. -/
def serializeHistory (conversationHistory : List ChatMessage) : String :=
  String.intercalate "\n"
    (conversationHistory.map fun msg => roleString msg.role ++ ": " ++ msg.content)

/-- Chinese summary prompt template. -/
def summaryPromptZh (signature : String) : String :=
  "请分析这个Solana交易签名：" ++ signature ++
    "\n\n请提供以下信息：\n1. 交易概述（Transaction Overview）\n2. 涉及的账户（Accounts Involved）\n3. 代币转账详情（Token Transfers）\n4. 程序调用（Program Calls）\n5. 交易费用（Transaction Fee）\n6. 任何值得注意的风险或异常（Notable Risks or Anomalies）\n\n请使用中文回复，并提供详细的技术分析。如果需要获取交易数据，请使用可用的工具。"

/-- English summary prompt template. -/
def summaryPromptEn (signature : String) : String :=
  "Please analyze this Solana transaction signature: " ++ signature ++
    "\n\nPlease provide the following information:\n1. Transaction Overview\n2. Accounts Involved\n3. Token Transfer Details\n4. Program Calls\n5. Transaction Fee\n6. Any notable risks or anomalies\n\nPlease respond in English and provide detailed technical analysis. Use available tools if you need to fetch transaction data."

/-- Japanese summary prompt template. -/
def summaryPromptJa (signature : String) : String :=
  "このSolana取引署名を分析してください：" ++ signature ++
    "\n\n以下の情報を提供してください：\n1. 取引概要（Transaction Overview）\n2. 関与するアカウント（Accounts Involved）\n3. トークン転送の詳細（Token Transfers）\n4. プログラム呼び出し（Program Calls）\n5. 取引手数料（Transaction Fee）\n6. 注目すべきリスクや異常（Notable Risks or Anomalies）\n\n日本語で回答し、詳細な技術分析を提供してください。取引データを取得する必要がある場合は、利用可能なツールを使用してください。"

/-- Korean summary prompt template. -/
def summaryPromptKo (signature : String) : String :=
  "이 Solana 거래 서명을 분석하십시오: " ++ signature ++
    "\n\n다음 정보를 제공하십시오:\n1. 거래 개요 (Transaction Overview)\n2. 관련 계정 (Accounts Involved)\n3. 토큰 전송 세부사항 (Token Transfers)\n4. 프로그램 호출 (Program Calls)\n5. 거래 수수료 (Transaction Fee)\n6. 주목할 만한 위험 또는 이상 (Notable Risks or Anomalies)\n\n한국어로 답변하고 상세한 기술 분석을 제공하십시오. 거래 데이터를 가져와야 하는 경우 사용 가능한 도구를 사용하십시오."

/-- Table-driven summary prompt selection.  The source looks the language
up in an object and falls back with the or-else operator; since every
template is a non-empty (truthy) string this is exactly a lookup with
default at the designated default language en-US. -/
def getTransactionSummaryPrompt (signature language : String) : String :=
  if language = "zh-CN" then summaryPromptZh signature
  else if language = "en-US" then summaryPromptEn signature
  else if language = "ja-JP" then summaryPromptJa signature
  else if language = "ko-KR" then summaryPromptKo signature
  else summaryPromptEn signature

/-- Chinese chat prompt template. -/
def chatPromptZh (signature userMessage : String) (conversationHistory : List ChatMessage) : String :=
  "你正在分析Solana交易签名：" ++ signature ++
    "\n\n对话历史：\n" ++ serializeHistory conversationHistory ++
    "\n\n用户问题：" ++ userMessage ++
    "\n\n请基于交易数据提供准确、有帮助的回答。如果需要获取更多交易信息，请使用可用的工具。请用中文回复。"

/-- English chat prompt template. -/
def chatPromptEn (signature userMessage : String) (conversationHistory : List ChatMessage) : String :=
  "You are analyzing a Solana transaction signature: " ++ signature ++
    "\n\nConversation history:\n" ++ serializeHistory conversationHistory ++
    "\n\nUser question: " ++ userMessage ++
    "\n\nPlease provide an accurate and helpful response based on transaction data. Use available tools if you need to fetch more transaction information. Please respond in English."

/-- Japanese chat prompt template. -/
def chatPromptJa (signature userMessage : String) (conversationHistory : List ChatMessage) : String :=
  "Solana取引署名を分析しています：" ++ signature ++
    "\n\n会話履歴：\n" ++ serializeHistory conversationHistory ++
    "\n\nユーザー質問：" ++ userMessage ++
    "\n\n取引データに基づいて正確で役立つ回答を提供してください。より多くの取引情報を取得する必要がある場合は、利用可能なツールを使用してください。日本語で回答してください。"

/-- Korean chat prompt template. -/
def chatPromptKo (signature userMessage : String) (conversationHistory : List ChatMessage) : String :=
  "Solana 거래 서명을 분석하고 있습니다: " ++ signature ++
    "\n\n대화 기록:\n" ++ serializeHistory conversationHistory ++
    "\n\n사용자 질문: " ++ userMessage ++
    "\n\n거래 데이터를 기반으로 정확하고 도움이 되는 답변을 제공하십시오. 더 많은 거래 정보를 가져와야 하는 경우 사용 가능한 도구를 사용하십시오. 한국어로 답변하십시오."

/-- Table-driven chat prompt selection with the same or-else fallback to
en-US as the summary prompt. -/
def getChatPrompt (signature userMessage : String)
    (conversationHistory : List ChatMessage) (language : String) : String :=
  if language = "zh-CN" then chatPromptZh signature userMessage conversationHistory
  else if language = "en-US" then chatPromptEn signature userMessage conversationHistory
  else if language = "ja-JP" then chatPromptJa signature userMessage conversationHistory
  else if language = "ko-KR" then chatPromptKo signature userMessage conversationHistory
  else chatPromptEn signature userMessage conversationHistory

/-- Language-specific addition appended to the original chat prompt for the
finalizing call, around the serialized tool-results section; unrecognized
codes fall back to en-US exactly as the prompt tables do. -/
def finalPromptAddition (language toolResultsText : String) : String :=
  if language = "zh-CN" then
    "\n\n工具调用结果:\n" ++ toolResultsText ++ "\n\n请基于以上工具调用结果提供完整的交易分析总结。"
  else if language = "en-US" then
    "\n\nTool Call Results:\n" ++ toolResultsText ++ "\n\nPlease provide a complete transaction analysis summary based on the above tool call results."
  else if language = "ja-JP" then
    "\n\nツール呼び出し結果:\n" ++ toolResultsText ++ "\n\n上記のツール呼び出し結果に基づいて完全な取引分析サマリーを提供してください。"
  else if language = "ko-KR" then
    "\n\n도구 호출 결과:\n" ++ toolResultsText ++ "\n\n위의 도구 호출 결과를 기반으로 완전한 거래 분석 요약을 제공하십시오."
  else
    "\n\nTool Call Results:\n" ++ toolResultsText ++ "\n\nPlease provide a complete transaction analysis summary based on the above tool call results."

/-- Conversion of MCP tool descriptors to the Gemini schema
(convertMCPToolsToGemini): an empty (or null) discovered list yields no
tool schema rather than an error; otherwise each descriptor is converted
totally, defaulting a missing description to the empty string and missing
schema fields to the empty object / empty list. -/
def convertMCPToolsToGemini (mcpTools : List MCPTool) : Option GeminiTools :=
  if mcpTools.isEmpty then none
  else some ⟨mcpTools.map fun tool =>
    ⟨tool.name, tool.description.getD "", tool.inputSchema.properties.getD "\x7b\x7d",
      tool.inputSchema.required.getD []⟩⟩

/-- One run of loadMCPTools.  Returns the updated state and whether the
tool service was contacted over the network.  Guards in source order: no
configured endpoint, then the already-loaded check on the client handle.
The client handle is assigned before connect and listTools run, and the
catch block never clears it, so connectFail and listFail leave the handle
set; transportFail throws before the assignment and leaves it null. -/
def loadMCPTools (st : AState) (att : MCPAttempt) : AState × Bool :=
  if st.settings.mcpUrl = "" then (st, false)
  else if st.mcpClient then (st, false)
  else
    match att with
    | MCPAttempt.transportFail => (st, false)
    | MCPAttempt.connectFail => ({ st with mcpClient := true }, true)
    | MCPAttempt.listFail => ({ st with mcpClient := true }, true)
    | MCPAttempt.ok tools =>
        ({ st with mcpClient := true, mcpTools := some tools,
                   geminiTools := convertMCPToolsToGemini tools }, true)

/-- reloadMCPTools: null out the client handle, the tool list and the
converted schema, then run a fresh discovery. -/
def reloadMCPTools (st : AState) (att : MCPAttempt) : AState × Bool :=
  loadMCPTools { st with mcpClient := false, mcpTools := none, geminiTools := none } att

/-- initializeGemini: with no API key the client handle is left unchanged
(a warning only); otherwise the model client is constructed. -/
def initGemini (st : AState) : AState :=
  if st.settings.geminiApiKey = "" then st else { st with genAI := true }

/-- reloadSettings: re-read settings (modelled by the freshly read value),
re-run model-client initialization, then run the discovery step.  The
returned Boolean is the contacted-the-tool-service flag of that discovery
step. -/
def reloadSettings (st : AState) (newSettings : Settings) (att : MCPAttempt) :
    AState × Bool :=
  loadMCPTools (initGemini { st with settings := newSettings }) att

/-- Assistant state right after the constructor and loadSettings. -/
def mkAssistant (settings : Settings) : AState :=
  ⟨settings, false, false, none, none⟩

/-- init: loadSettings (folded into mkAssistant), initializeGemini, then
loadMCPTools. -/
def initAssistant (settings : Settings) (att : MCPAttempt) : AState :=
  (loadMCPTools (initGemini (mkAssistant settings)) att).1

/-- The lazy discovery step at the top of chatWithTransaction: when no
converted tool schema is present, attempt to load the MCP tools. -/
def chatLoadPhase (st : AState) (att : MCPAttempt) : AState × Bool :=
  if st.geminiTools.isNone then loadMCPTools st att else (st, false)

/-- JS truthiness of part.text: present and non-empty. -/
def truthyText (p : ResponsePart) : Bool :=
  !(p.text.getD "" == "")

/-- Text extraction in chatWithTransaction: the first part whose text is
truthy, else the empty string (also when the parts array is absent). -/
def extractChatText (parts? : Option (List ResponsePart)) : String :=
  match (parts?.getD []).find? truthyText with
  | some p => p.text.getD ""
  | none => ""

/-- Text extraction in generateTransactionSummary: same search, but with
a fixed fallback sentence instead of the empty string. -/
def extractSummaryText (parts? : Option (List ResponsePart)) : String :=
  match (parts?.getD []).find? truthyText with
  | some p => p.text.getD ""
  | none => "Unable to generate summary"

/-- The tool-call requests of a model response: the parts carrying a
functionCall field, in response order, projected to their calls. -/
def functionCallRequests (parts? : Option (List ResponsePart)) : List FunctionCall :=
  ((parts?.getD []).filter fun p => p.functionCall.isSome).filterMap ResponsePart.functionCall

/-- Execution of one requested tool call inside the sequential loop.
callMCPTool throws when the client handle is null; that throw is caught by
the per-call catch and recorded like any tool failure.  Otherwise the call
is delegated to the tool service (the invoke oracle). -/
def execToolCall (st : AState) (invoke : String → String → Except String String)
    (call : FunctionCall) : ToolResultEntry :=
  if st.mcpClient then
    match invoke call.name call.args with
    | Except.ok payload => ⟨call.name, some payload, none⟩
    | Except.error msg => ⟨call.name, none, some msg⟩
  else ⟨call.name, none, some "MCP client not initialized"⟩

/-- Serialization of the result field of one toolResults entry, as
JSON.stringify renders it inside the template literal: an absent field
(the failure case stores only tool and error) prints as undefined. -/
def stringifyResultField : Option String → String
  | some payload => payload
  | none => "undefined"

/-- One line of the tool-results section: tool name and serialized result
field.  Note the source serializes the result field only — the error field
of a failed call never reaches this text. -/
def toolResultLine (r : ToolResultEntry) : String :=
  "Tool: " ++ r.tool ++ "\nResult: " ++ stringifyResultField r.result

/-- The serialized tool-results section of the follow-up prompt. -/
def toolResultsSection (toolResults : List ToolResultEntry) : String :=
  String.intercalate "\n\n" (toolResults.map toolResultLine)

/-- Conversion of one transcript turn to the model turn format:
user stays user, everything else becomes model. -/
def chatMessageToContent (msg : ChatMessage) : GenContent :=
  ⟨if msg.role = Role.user then "user" else "model", [ResponsePart.mkText msg.content]⟩

/-- One run of chatWithTransaction.  Oracles: att drives the lazy
discovery attempt, resp1 and resp2 are the two possible model responses
(transport error, or the parts array of candidate 0, possibly absent),
invoke answers tool invocations.  Returns the updated assistant state, the
observable trace, and the settled promise value. -/
def chatWithTransaction (st : AState) (signature userMessage : String)
    (history : List ChatMessage) (att : MCPAttempt)
    (resp1 : Except String (Option (List ResponsePart)))
    (invoke : String → String → Except String String)
    (resp2 : Except String (Option (List ResponsePart))) :
    AState × ChatTrace × Except String ChatResponse :=
  if st.genAI then
    let st1 := (chatLoadPhase st att).1
    let contacted := (chatLoadPhase st att).2
    let context := getChatPrompt signature userMessage [] st1.settings.responseLanguage
    let req1 : GenRequest :=
      ⟨st1.settings.geminiModel, st1.geminiTools,
        history.map chatMessageToContent ++ [GenContent.mk "user" [ResponsePart.mkText context]]⟩
    match resp1 with
    | Except.error e => (st1, ⟨[req1], [], contacted⟩, Except.error e)
    | Except.ok parts? =>
        let functionCalls := functionCallRequests parts?
        if functionCalls.isEmpty then
          (st1, ⟨[req1], [], contacted⟩,
            Except.ok ⟨extractChatText parts?, [], []⟩)
        else
          let toolResults := functionCalls.map (execToolCall st1 invoke)
          let finalPrompt :=
            context ++ finalPromptAddition st1.settings.responseLanguage
              (toolResultsSection toolResults)
          let req2 : GenRequest :=
            ⟨st1.settings.geminiModel, st1.geminiTools,
              [GenContent.mk "user" [ResponsePart.mkText finalPrompt]]⟩
          match resp2 with
          | Except.error e =>
              (st1, ⟨[req1, req2], functionCalls, contacted⟩, Except.error e)
          | Except.ok parts2? =>
              (st1, ⟨[req1, req2], functionCalls, contacted⟩,
                Except.ok ⟨extractChatText parts2?, functionCalls, toolResults⟩)
  else
    (st, ⟨[], [], false⟩, Except.error "Gemini AI not initialized")

/-- One run of generateTransactionSummary.  The request carries no tool
schema (the source never sets a tools field on this call) and a single
user turn holding the summary prompt. -/
def generateTransactionSummary (st : AState) (signature : String)
    (resp : Except String (Option (List ResponsePart))) :
    SummaryTrace × Except String TransactionSummaryResponse :=
  if st.genAI then
    let prompt := getTransactionSummaryPrompt signature st.settings.responseLanguage
    let req : GenRequest :=
      ⟨st.settings.geminiModel, none, [GenContent.mk "user" [ResponsePart.mkText prompt]]⟩
    match resp with
    | Except.error e => (⟨[req]⟩, Except.error e)
    | Except.ok parts? => (⟨[req]⟩, Except.ok ⟨extractSummaryText parts?, [], []⟩)
  else
    (⟨[]⟩, Except.error "Gemini AI not initialized. Please configure your API key.")

/-- The structured response the background message listener sends back to
the content script for a chat request. -/
structure UiResponse where
  success : Bool
  data : Option ChatResponse
  error : Option String
  deriving DecidableEq, Repr

/-- The listener maps a resolved chat to success plus data and a rejected
one to failure plus the error message. -/
def handleChatResult : Except String ChatResponse → UiResponse
  | Except.ok d => ⟨true, some d, none⟩
  | Except.error e => ⟨false, none, some e⟩

/-- Transcript update performed by the content script sendChatMessage:
on success the user turn and the assistant turn are pushed, on failure the
conversation history is left untouched. -/
def chatHistoryAfter (history : List ChatMessage) (message : String)
    (result : Except String ChatResponse) : List ChatMessage :=
  match result with
  | Except.ok d => history ++ [⟨Role.user, message⟩, ⟨Role.assistant, d.response⟩]
  | Except.error _ => history

/-- Substring test on character lists, used to state what a built prompt
does and does not contain. -/
def containsSub (pat : List Char) : List Char → Bool
  | [] => pat.isEmpty
  | c :: rest => pat.isPrefixOf (c :: rest) || containsSub pat rest

/-- Substring test on strings. -/
def strContains (s pat : String) : Bool :=
  containsSub pat.toList s.toList

/-- The text of the single part of the single turn of the second model
request of a trace (empty if the trace has no such shape). -/
def secondRequestText (tr : ChatTrace) : String :=
  match tr.modelRequests with
  | [_, r2] =>
      match r2.contents with
      | [c] =>
          match c.parts with
          | [p] => p.text.getD ""
          | _ => ""
      | _ => ""
  | _ => ""

/-- Concrete settings used by the evaluation fixtures. -/
def settingsW : Settings :=
  ⟨"test-key", "http://localhost:3000/mcp", "gemini-2.5-pro", "en-US"⟩

/-- Concrete discovered tool used by the evaluation fixtures. -/
def toolW : MCPTool :=
  ⟨"get_solana_transaction", some "Fetch a Solana transaction", ⟨none, none⟩⟩

/-- Concrete assistant state with model client ready and tools loaded. -/
def stW : AState :=
  ⟨settingsW, true, true, some [toolW],
    convertMCPToolsToGemini [toolW]⟩

/-- Concrete tool-call request fixture. -/
def callW : FunctionCall := ⟨"get_solana_transaction", "SIG123"⟩

/-- Concrete first model response carrying one tool-call request. -/
def partsW : Option (List ResponsePart) := some [{ functionCall := some callW }]

/-- Concrete first model response carrying two tool-call requests. -/
def partsTwoW : Option (List ResponsePart) :=
  some [{ functionCall := some ⟨"tool_a", "argsA"⟩ },
        { functionCall := some ⟨"tool_b", "argsB"⟩ }]

/-- Concrete text-only model response. -/
def partsTextW : Option (List ResponsePart) :=
  some [ResponsePart.mkText "The fee was 0.000005 SOL."]

/-- Tool oracle answering every invocation with a fixed payload. -/
def invokeW : String → String → Except String String :=
  fun _ _ => Except.ok "42"

/-- Tool oracle failing tool_a with message boom and answering the rest. -/
def invokeFailW : String → String → Except String String :=
  fun name _ => if name == "tool_a" then Except.error "boom" else Except.ok "42"

/-- Concrete second model response. -/
def resp2W : Except String (Option (List ResponsePart)) := Except.ok partsTextW

/-- Concrete assistant state with model client ready but no discovery yet. -/
def stClean : AState := ⟨settingsW, true, false, none, none⟩

/-- Concrete settings with no model credential configured. -/
def settingsNoKey : Settings :=
  ⟨"", "http://localhost:3000/mcp", "gemini-2.5-pro", "en-US"⟩

/-- Concrete chat run in which the first of two requested tool calls fails
with message boom and the second succeeds with payload 42. -/
def chatRunC2 : AState × ChatTrace × Except String ChatResponse :=
  chatWithTransaction stW "SIG123" "What fee was paid?" [] MCPAttempt.transportFail
    (Except.ok partsTwoW) invokeFailW resp2W

/-- Concrete summarize run on a state whose tool schema is loaded. -/
def sumRunC5 : SummaryTrace × Except String TransactionSummaryResponse :=
  generateTransactionSummary stW "SIG123" (Except.ok partsTextW)

/-- Conclusion of claim C1 at the given inputs: with N tool-call requests
in the first response, exactly those N calls are invoked in order and
exactly two model calls happen, the second being a single fresh user turn
holding the original prompt text plus the tool-results section. -/
def C1Concl (st : AState) (signature userMessage : String)
    (history : List ChatMessage) (att : MCPAttempt)
    (parts? : Option (List ResponsePart))
    (invoke : String → String → Except String String)
    (resp2 : Except String (Option (List ResponsePart))) : Prop :=
  let st1 := (chatLoadPhase st att).1
  let context := getChatPrompt signature userMessage [] st1.settings.responseLanguage
  let calls := functionCallRequests parts?
  let outcomes := calls.map (execToolCall st1 invoke)
  let tr := (chatWithTransaction st signature userMessage history att
    (Except.ok parts?) invoke resp2).2.1
  tr.toolInvocations = calls ∧
  tr.modelRequests =
    [⟨st1.settings.geminiModel, st1.geminiTools,
        history.map chatMessageToContent ++ [GenContent.mk "user" [ResponsePart.mkText context]]⟩,
     ⟨st1.settings.geminiModel, st1.geminiTools,
        [GenContent.mk "user"
          [ResponsePart.mkText
            (context ++ finalPromptAddition st1.settings.responseLanguage
              (toolResultsSection outcomes))]]⟩]

/-- Conclusion of the amended claim C2 at the given inputs: every
requested call is invoked even when some fail, the returned outcome list
carries each failure message, and the serialized tool-results section
renders each succeeding call with its payload but a failed call with the
literal text undefined in place of its failure message. -/
def C2Concl (st : AState) (signature userMessage : String)
    (history : List ChatMessage) (att : MCPAttempt)
    (parts? parts2? : Option (List ResponsePart))
    (invoke : String → String → Except String String) : Prop :=
  let st1 := (chatLoadPhase st att).1
  let calls := functionCallRequests parts?
  let outcomes := calls.map (execToolCall st1 invoke)
  let run := chatWithTransaction st signature userMessage history att
    (Except.ok parts?) invoke (Except.ok parts2?)
  run.2.1.toolInvocations = calls ∧
  run.2.2 = Except.ok ⟨extractChatText parts2?, calls,
    calls.map fun call =>
      match invoke call.name call.args with
      | Except.ok payload => ⟨call.name, some payload, none⟩
      | Except.error msg => ⟨call.name, none, some msg⟩⟩ ∧
  toolResultsSection outcomes =
    String.intercalate "\n\n" (calls.map fun call =>
      match invoke call.name call.args with
      | Except.ok payload => "Tool: " ++ call.name ++ "\nResult: " ++ payload
      | Except.error _ => "Tool: " ++ call.name ++ "\nResult: " ++ "undefined") ∧
  secondRequestText run.2.1 =
    getChatPrompt signature userMessage [] st1.settings.responseLanguage ++
      finalPromptAddition st1.settings.responseLanguage (toolResultsSection outcomes)

/-- Conclusion of claim C3 at the given inputs: with no tool-call request
in the first response the exchange resolves after one model call with that
response's extracted text, and the transcript gains exactly the user turn
and the assistant turn. -/
def C3Concl (st : AState) (signature userMessage : String)
    (history : List ChatMessage) (att : MCPAttempt)
    (parts? : Option (List ResponsePart))
    (invoke : String → String → Except String String)
    (resp2 : Except String (Option (List ResponsePart))) : Prop :=
  let run := chatWithTransaction st signature userMessage history att
    (Except.ok parts?) invoke resp2
  run.2.2 = Except.ok ⟨extractChatText parts?, [], []⟩ ∧
  run.2.1.modelRequests.length = 1 ∧
  run.2.1.toolInvocations = [] ∧
  chatHistoryAfter history userMessage run.2.2 =
    history ++ [⟨Role.user, userMessage⟩, ⟨Role.assistant, extractChatText parts?⟩]

/-- Conclusion of claim C4 at the given inputs: an exchange issues at most
two model calls, and the one batch of tool invocations is exactly the set
of requests of the first response — whatever the finalizing response
contains is never executed. -/
def C4Concl (st : AState) (signature userMessage : String)
    (history : List ChatMessage) (att : MCPAttempt)
    (resp1 : Except String (Option (List ResponsePart)))
    (invoke : String → String → Except String String)
    (resp2 : Except String (Option (List ResponsePart))) : Prop :=
  let run := chatWithTransaction st signature userMessage history att resp1 invoke resp2
  run.2.1.modelRequests.length ≤ 2 ∧
  run.2.1.toolInvocations =
    (match resp1 with
     | Except.ok parts? => functionCallRequests parts?
     | Except.error _ => ([] : List FunctionCall))

/-- Conclusion of the amended claim C5 at the given inputs: the drafting
call of a chat exchange sends the constructed prompt, the converted prior
transcript and the current tool schema, while the drafting call of a
summarize operation sends a single user turn with the summary prompt and
never attaches a tool schema. -/
def C5Concl (st : AState) (signature userMessage : String)
    (history : List ChatMessage) (att : MCPAttempt)
    (resp1 : Except String (Option (List ResponsePart)))
    (invoke : String → String → Except String String)
    (resp2 respS : Except String (Option (List ResponsePart))) : Prop :=
  let st1 := (chatLoadPhase st att).1
  let context := getChatPrompt signature userMessage [] st1.settings.responseLanguage
  let chatRun := chatWithTransaction st signature userMessage history att resp1 invoke resp2
  let sumRun := generateTransactionSummary st signature respS
  chatRun.2.1.modelRequests.head? = some
    ⟨st1.settings.geminiModel, st1.geminiTools,
      history.map chatMessageToContent ++ [GenContent.mk "user" [ResponsePart.mkText context]]⟩ ∧
  sumRun.1.modelRequests =
    [⟨st.settings.geminiModel, none,
      [GenContent.mk "user"
        [ResponsePart.mkText (getTransactionSummaryPrompt signature st.settings.responseLanguage)]]⟩]

/-- Conclusion of claim C6 at the given inputs: a failing first model call
rejects the exchange with that error, the listener surfaces the error to
the caller, and the conversation transcript is unchanged. -/
def C6Concl (st : AState) (signature userMessage : String)
    (history : List ChatMessage) (att : MCPAttempt) (e : String)
    (invoke : String → String → Except String String)
    (resp2 : Except String (Option (List ResponsePart))) : Prop :=
  let run := chatWithTransaction st signature userMessage history att
    (Except.error e) invoke resp2
  run.2.2 = Except.error e ∧
  handleChatResult run.2.2 = ⟨false, none, some e⟩ ∧
  chatHistoryAfter history userMessage run.2.2 = history

/-- Conclusion of claim C7 at the given inputs: on an assistant
initialized without a model credential, both operations fail with the
configuration error while issuing no model request and contacting no tool
service. -/
def C7Concl (settings : Settings) (att attC : MCPAttempt)
    (signature userMessage : String) (history : List ChatMessage)
    (respS resp1 resp2 : Except String (Option (List ResponsePart)))
    (invoke : String → String → Except String String) : Prop :=
  let st := initAssistant settings att
  let sumRun := generateTransactionSummary st signature respS
  let chatRun := chatWithTransaction st signature userMessage history attC
    resp1 invoke resp2
  st.genAI = false ∧
  sumRun.1.modelRequests = [] ∧
  sumRun.2 = Except.error "Gemini AI not initialized. Please configure your API key." ∧
  chatRun.2.1 = ⟨[], [], false⟩ ∧
  chatRun.2.2 = Except.error "Gemini AI not initialized"

/-- Conclusion of claim C8 at the given inputs: an empty discovered tool
list converts to no schema rather than an error, and a drafting-only chat
exchange in tool-less mode still resolves with a plain-text answer, its
single model request carrying no tool schema. -/
def C8Concl (st : AState) (signature userMessage : String)
    (history : List ChatMessage) (att : MCPAttempt)
    (parts? : Option (List ResponsePart))
    (invoke : String → String → Except String String)
    (resp2 : Except String (Option (List ResponsePart))) : Prop :=
  let st1 := (chatLoadPhase st att).1
  let run := chatWithTransaction st signature userMessage history att
    (Except.ok parts?) invoke resp2
  convertMCPToolsToGemini [] = none ∧
  st1.geminiTools = none ∧
  run.2.1.modelRequests =
    [⟨st1.settings.geminiModel, none,
      history.map chatMessageToContent ++
        [GenContent.mk "user"
          [ResponsePart.mkText (getChatPrompt signature userMessage [] st1.settings.responseLanguage)]]⟩] ∧
  run.2.2 = Except.ok ⟨extractChatText parts?, [], []⟩

/-- Conclusion of claim C9 at the given inputs: every supported language
code yields non-empty prompts containing the signature verbatim, and every
other code deterministically yields the en-US templates. -/
def C9Concl (signature userMessage : String) (hist : List ChatMessage)
    (language : String) : Prop :=
  ((language = "zh-CN" ∨ language = "en-US" ∨ language = "ja-JP" ∨ language = "ko-KR") →
    getTransactionSummaryPrompt signature language ≠ "" ∧
    (∃ a b, getTransactionSummaryPrompt signature language = a ++ signature ++ b) ∧
    getChatPrompt signature userMessage hist language ≠ "" ∧
    (∃ a b, getChatPrompt signature userMessage hist language = a ++ signature ++ b)) ∧
  (¬ (language = "zh-CN" ∨ language = "en-US" ∨ language = "ja-JP" ∨ language = "ko-KR") →
    getTransactionSummaryPrompt signature language = getTransactionSummaryPrompt signature "en-US" ∧
    getChatPrompt signature userMessage hist language = getChatPrompt signature userMessage hist "en-US")

/-- Conclusion of claim C10 at the given inputs: a discovery attempt whose
connect or list-tools step fails still contacted the service once and left
the client handle assigned without gaining tools; from then on every
discovery call — including the one reloadSettings runs — returns
immediately with no contact and no tools, and only reloadMCPTools, which
nulls the client, the tool list and the schema, performs a fresh contacting
discovery. -/
def C10Concl (st0 : AState) (att1 att2 : MCPAttempt) (ns : Settings)
    (tools : List MCPTool) : Prop :=
  let st1 := (loadMCPTools st0 att1).1
  (loadMCPTools st0 att1).2 = true ∧
  st1.mcpClient = true ∧
  st1.mcpTools = st0.mcpTools ∧
  st1.geminiTools = st0.geminiTools ∧
  loadMCPTools st1 att2 = (st1, false) ∧
  (reloadSettings st1 ns att2).2 = false ∧
  (reloadSettings st1 ns att2).1.mcpClient = true ∧
  (reloadSettings st1 ns att2).1.mcpTools = st0.mcpTools ∧
  (reloadSettings st1 ns att2).1.geminiTools = st0.geminiTools ∧
  reloadMCPTools st1 (MCPAttempt.ok tools) =
    ({ st1 with mcpClient := true, mcpTools := some tools,
                geminiTools := convertMCPToolsToGemini tools }, true)

set_option maxRecDepth 100000

/-- Helper: loadMCPTools never changes the model-client handle. -/
theorem loadMCPTools_genAI (st : AState) (att : MCPAttempt) :
    (loadMCPTools st att).1.genAI = st.genAI := by
  unfold loadMCPTools
  split
  · rfl
  · split
    · rfl
    · cases att <;> rfl

/-- Helper: a string with a non-empty prefix is non-empty. -/
theorem str_append_ne_empty (pre rest : String) (h : pre.length ≠ 0) :
    pre ++ rest ≠ "" := by
  intro hc
  apply h
  have hl := congrArg String.length hc
  rw [String.length_append] at hl
  simp at hl
  omega

/-- Helper: the chat template, seven appended segments with the signature
second, decomposes around the signature. -/
theorem exists_decomp_chat (p s m h q u t : String) :
    ∃ a b, p ++ s ++ m ++ h ++ q ++ u ++ t = a ++ s ++ b := by
  refine ⟨p, m ++ h ++ q ++ u ++ t, ?_⟩
  simp [String.append_assoc]

/-- Helper: a latched client handle makes discovery return immediately,
leaving the state untouched and contacting nothing. -/
theorem loadMCPTools_latched (st : AState) (att : MCPAttempt)
    (h : st.mcpClient = true) : loadMCPTools st att = (st, false) := by
  unfold loadMCPTools
  split
  · rfl
  · simp [h]

/-- Helper: initGemini changes at most the model-client handle. -/
theorem initGemini_fields (st : AState) :
    (initGemini st).mcpClient = st.mcpClient ∧
    (initGemini st).mcpTools = st.mcpTools ∧
    (initGemini st).geminiTools = st.geminiTools ∧
    (initGemini st).settings = st.settings := by
  unfold initGemini
  split <;> simp

/-- Helper: when the schema is absent and the pending discovery attempt
fails, never runs (no endpoint), or discovers zero tools, the lazy load
step leaves the schema absent and the settings unchanged. -/
theorem chatLoadPhase_tools_none (st : AState) (att : MCPAttempt)
    (hTools : st.geminiTools = none)
    (hAtt : att = MCPAttempt.transportFail ∨ att = MCPAttempt.connectFail ∨
      att = MCPAttempt.listFail ∨ att = MCPAttempt.ok [] ∨ st.settings.mcpUrl = "") :
    (chatLoadPhase st att).1.geminiTools = none ∧
    (chatLoadPhase st att).1.settings = st.settings := by
  unfold chatLoadPhase loadMCPTools
  by_cases hnone : st.geminiTools.isNone
  · by_cases hurl : st.settings.mcpUrl = ""
    · simp [hnone, hurl, hTools]
    · by_cases hcl : st.mcpClient
      · simp [hnone, hurl, hcl, hTools]
      · rcases hAtt with h | h | h | h | h
        · subst h; simp [hnone, hurl, hcl, hTools]
        · subst h; simp [hnone, hurl, hcl, hTools]
        · subst h; simp [hnone, hurl, hcl, hTools]
        · subst h; simp [hnone, hurl, hcl, convertMCPToolsToGemini]
        · exact absurd h hurl
  · rw [hTools] at hnone
    simp at hnone

/-- Claim C1: for every chat exchange whose first model response contains
N ≥ 1 tool-call requests, the engine invokes exactly those N tools,
sequentially and in request order, and then issues exactly one follow-up
model call whose contents are a single fresh user turn — the original
prompt text plus the language-specific tool-results section — which does
not replay the prior transcript. -/
theorem c1_theorem (st : AState) (signature userMessage : String)
    (history : List ChatMessage) (att : MCPAttempt)
    (parts? : Option (List ResponsePart))
    (invoke : String → String → Except String String)
    (resp2 : Except String (Option (List ResponsePart)))
    (hG : st.genAI = true)
    (hN : functionCallRequests parts? ≠ []) :
    C1Concl st signature userMessage history att parts? invoke resp2 := by
  unfold C1Concl chatWithTransaction
  rw [hG]
  cases hc : functionCallRequests parts? with
  | nil => exact absurd hc hN
  | cons a l =>
      cases resp2 <;> simp [hc]

/-- Witness for C1 at a concrete exchange with one tool-call request. -/
theorem c1_witness :
    stW.genAI = true ∧ functionCallRequests partsW ≠ [] ∧
    C1Concl stW "SIG123" "What fee was paid?" [] MCPAttempt.transportFail partsW invokeW resp2W :=
  ⟨rfl, by decide,
    c1_theorem stW "SIG123" "What fee was paid?" [] MCPAttempt.transportFail partsW invokeW resp2W
      rfl (by decide)⟩

/-- Counterexample to claim C2 as stated: in a concrete exchange with two
requested tool calls in which tool_a fails with message boom, both calls
are executed and the returned outcome list records the failure message,
but the follow-up prompt does not contain that failure message anywhere —
the failed call is serialized as the literal text undefined, while the
succeeding call's payload 42 does appear. -/
theorem c2_counterexample :
    chatRunC2.2.1.toolInvocations.length = 2 ∧
    chatRunC2.2.2 = Except.ok ⟨"The fee was 0.000005 SOL.",
      [⟨"tool_a", "argsA"⟩, ⟨"tool_b", "argsB"⟩],
      [⟨"tool_a", none, some "boom"⟩, ⟨"tool_b", some "42", none⟩]⟩ ∧
    strContains (secondRequestText chatRunC2.2.1) "boom" = false ∧
    strContains (secondRequestText chatRunC2.2.1) "42" = true :=
  ⟨by decide, rfl, by decide, by decide⟩

/-- Claim C2 (amended): when one of the N ≥ 1 requested tool invocations
fails, the remaining invocations still execute and the returned outcome
list carries the failure message, but the serialized tool-results section
of the follow-up prompt renders a failed call as its tool name with the
literal text undefined in place of a result — the failure message itself
never reaches the follow-up prompt; each succeeding call appears with its
success payload. -/
theorem c2_theorem (st : AState) (signature userMessage : String)
    (history : List ChatMessage) (att : MCPAttempt)
    (parts? parts2? : Option (List ResponsePart))
    (invoke : String → String → Except String String)
    (hG : st.genAI = true)
    (hMcp : (chatLoadPhase st att).1.mcpClient = true)
    (hN : functionCallRequests parts? ≠ []) :
    C2Concl st signature userMessage history att parts? parts2? invoke := by
  have hexec : execToolCall (chatLoadPhase st att).1 invoke = fun call =>
      match invoke call.name call.args with
      | Except.ok payload => ⟨call.name, some payload, none⟩
      | Except.error msg => ⟨call.name, none, some msg⟩ := by
    funext call
    unfold execToolCall
    rw [hMcp]
    simp
  unfold C2Concl chatWithTransaction
  rw [hG]
  cases hc : functionCallRequests parts? with
  | nil => exact absurd hc hN
  | cons a l =>
      refine ⟨by simp [hc], ?_, ?_, ?_⟩
      · simp [hc, hexec]
      · rw [hexec]
        unfold toolResultsSection
        rw [List.map_map]
        congr 1
        apply List.map_congr_left
        intro call _
        cases hi : invoke call.name call.args <;>
          simp [toolResultLine, stringifyResultField, hi]
      · simp [hc, secondRequestText, ResponsePart.mkText]

/-- Witness for the amended C2 at a concrete exchange with one failing
and one succeeding tool call. -/
theorem c2_witness :
    stW.genAI = true ∧ (chatLoadPhase stW MCPAttempt.transportFail).1.mcpClient = true ∧
    functionCallRequests partsTwoW ≠ [] ∧
    C2Concl stW "SIG123" "What fee was paid?" [] MCPAttempt.transportFail partsTwoW partsTextW invokeFailW :=
  ⟨rfl, by decide, by decide,
    c2_theorem stW "SIG123" "What fee was paid?" [] MCPAttempt.transportFail partsTwoW partsTextW
      invokeFailW rfl (by decide) (by decide)⟩

/-- Claim C3: a chat exchange whose first model response carries no
tool-call request resolves after exactly one model call with that
response's extracted text as the final answer, and the conversation
transcript gains exactly two turns, the user question followed by the
assistant answer. -/
theorem c3_theorem (st : AState) (signature userMessage : String)
    (history : List ChatMessage) (att : MCPAttempt)
    (parts? : Option (List ResponsePart))
    (invoke : String → String → Except String String)
    (resp2 : Except String (Option (List ResponsePart)))
    (hG : st.genAI = true)
    (hEmpty : functionCallRequests parts? = []) :
    C3Concl st signature userMessage history att parts? invoke resp2 := by
  unfold C3Concl chatWithTransaction
  rw [hG]
  simp [hEmpty, chatHistoryAfter]

/-- Witness for C3 at a concrete text-only exchange. -/
theorem c3_witness :
    stW.genAI = true ∧ functionCallRequests partsTextW = [] ∧
    C3Concl stW "SIG123" "What fee was paid?" [] MCPAttempt.transportFail partsTextW invokeW resp2W :=
  ⟨rfl, by decide,
    c3_theorem stW "SIG123" "What fee was paid?" [] MCPAttempt.transportFail partsTextW invokeW
      resp2W rfl (by decide)⟩

/-- Claim C4: every exchange has at most one tool-calling round — the
batch of invoked tool calls is exactly the first response's request list,
whatever the finalizing response contains (it is never executed), and no
exchange issues more than two model calls. -/
theorem c4_theorem (st : AState) (signature userMessage : String)
    (history : List ChatMessage) (att : MCPAttempt)
    (resp1 : Except String (Option (List ResponsePart)))
    (invoke : String → String → Except String String)
    (resp2 : Except String (Option (List ResponsePart)))
    (hG : st.genAI = true) :
    C4Concl st signature userMessage history att resp1 invoke resp2 := by
  unfold C4Concl chatWithTransaction
  rw [hG]
  cases resp1 with
  | error e => simp
  | ok parts? =>
      cases hc : functionCallRequests parts? with
      | nil => simp [hc]
      | cons a l => cases resp2 <;> simp [hc]

/-- Witness for C4 at a concrete exchange whose finalizing response again
carries a tool-call request. -/
theorem c4_witness :
    stW.genAI = true ∧
    C4Concl stW "SIG123" "What fee was paid?" [] MCPAttempt.transportFail (Except.ok partsW)
      invokeW (Except.ok partsW) :=
  ⟨rfl,
    c4_theorem stW "SIG123" "What fee was paid?" [] MCPAttempt.transportFail (Except.ok partsW)
      invokeW (Except.ok partsW) rfl⟩

/-- Counterexample to claim C5 as stated: on a state whose tool schema is
discovered and available, the summarize operation's single drafting model
request carries no tool schema at all. -/
theorem c5_counterexample :
    stW.geminiTools.isSome = true ∧
    sumRunC5.1.modelRequests.map GenRequest.tools = [none] ∧
    sumRunC5.1.modelRequests.map GenRequest.tools ≠ [stW.geminiTools] :=
  ⟨rfl, rfl, by decide⟩

/-- Claim C5 (amended): the drafting call of a chat exchange sends the
constructed prompt, the full prior transcript converted to user/model
turns, and the currently discovered tool schema whenever one is available;
the drafting call of the summarize operation sends only the constructed
prompt as a single user turn and never attaches the tool schema, even
when tools are discovered. -/
theorem c5_theorem (st : AState) (signature userMessage : String)
    (history : List ChatMessage) (att : MCPAttempt)
    (resp1 : Except String (Option (List ResponsePart)))
    (invoke : String → String → Except String String)
    (resp2 respS : Except String (Option (List ResponsePart)))
    (hG : st.genAI = true) :
    C5Concl st signature userMessage history att resp1 invoke resp2 respS := by
  unfold C5Concl chatWithTransaction generateTransactionSummary
  rw [hG]
  constructor
  · cases resp1 with
    | error e => simp
    | ok parts? =>
        cases hc : functionCallRequests parts? with
        | nil => simp [hc]
        | cons a l => cases resp2 <;> simp [hc]
  · cases respS <;> simp

/-- Witness for the amended C5 at a concrete state with discovered tools. -/
theorem c5_witness :
    stW.genAI = true ∧
    C5Concl stW "SIG123" "What fee was paid?" [] MCPAttempt.transportFail (Except.ok partsW)
      invokeW resp2W (Except.ok partsTextW) :=
  ⟨rfl,
    c5_theorem stW "SIG123" "What fee was paid?" [] MCPAttempt.transportFail (Except.ok partsW)
      invokeW resp2W (Except.ok partsTextW) rfl⟩

/-- Claim C6: when the first model call of a chat exchange fails, the
exchange rejects with that error, the listener surfaces the error message
to the caller, and the conversation transcript is identical before and
after the failed exchange. -/
theorem c6_theorem (st : AState) (signature userMessage : String)
    (history : List ChatMessage) (att : MCPAttempt) (e : String)
    (invoke : String → String → Except String String)
    (resp2 : Except String (Option (List ResponsePart)))
    (hG : st.genAI = true) :
    C6Concl st signature userMessage history att e invoke resp2 := by
  unfold C6Concl chatWithTransaction
  rw [hG]
  simp [handleChatResult, chatHistoryAfter]

/-- Witness for C6 at a concrete failing first model call. -/
theorem c6_witness :
    stW.genAI = true ∧
    C6Concl stW "SIG123" "What fee was paid?" [] MCPAttempt.transportFail "network down"
      invokeW resp2W :=
  ⟨rfl,
    c6_theorem stW "SIG123" "What fee was paid?" [] MCPAttempt.transportFail "network down"
      invokeW resp2W rfl⟩

/-- Claim C7: on an assistant initialized without a model credential, both
the summarize and the chat operation fail with the configuration error
before issuing any model request and without contacting the tool
service. -/
theorem c7_theorem (settings : Settings) (att attC : MCPAttempt)
    (signature userMessage : String) (history : List ChatMessage)
    (respS resp1 resp2 : Except String (Option (List ResponsePart)))
    (invoke : String → String → Except String String)
    (hKey : settings.geminiApiKey = "") :
    C7Concl settings att attC signature userMessage history respS resp1 resp2 invoke := by
  have hg : (initAssistant settings att).genAI = false := by
    unfold initAssistant
    rw [loadMCPTools_genAI]
    unfold initGemini mkAssistant
    simp [hKey]
  unfold C7Concl
  refine ⟨hg, ?_⟩
  unfold generateTransactionSummary chatWithTransaction
  rw [hg]
  simp

/-- Witness for C7 at concrete credential-less settings. -/
theorem c7_witness :
    settingsNoKey.geminiApiKey = "" ∧
    C7Concl settingsNoKey MCPAttempt.transportFail MCPAttempt.transportFail "SIG123"
      "What fee was paid?" [] (Except.ok partsTextW) (Except.ok partsTextW) resp2W invokeW :=
  ⟨rfl,
    c7_theorem settingsNoKey MCPAttempt.transportFail MCPAttempt.transportFail "SIG123"
      "What fee was paid?" [] (Except.ok partsTextW) (Except.ok partsTextW) resp2W invokeW rfl⟩

/-- Claim C8: a failed, never-configured, or zero-tool discovery is
non-fatal — the converted schema is simply absent rather than an error
value, and a drafting-only chat exchange still proceeds to the model with
no tool schema attached and resolves with a plain-text answer. -/
theorem c8_theorem (st : AState) (signature userMessage : String)
    (history : List ChatMessage) (att : MCPAttempt)
    (parts? : Option (List ResponsePart))
    (invoke : String → String → Except String String)
    (resp2 : Except String (Option (List ResponsePart)))
    (hG : st.genAI = true)
    (hTools : st.geminiTools = none)
    (hEmpty : functionCallRequests parts? = [])
    (hAtt : att = MCPAttempt.transportFail ∨ att = MCPAttempt.connectFail ∨
      att = MCPAttempt.listFail ∨ att = MCPAttempt.ok [] ∨ st.settings.mcpUrl = "") :
    C8Concl st signature userMessage history att parts? invoke resp2 := by
  obtain ⟨h1, h2⟩ := chatLoadPhase_tools_none st att hTools hAtt
  unfold C8Concl chatWithTransaction
  rw [hG]
  simp [hEmpty, h1, convertMCPToolsToGemini]

/-- Witness for C8 at a concrete zero-tool discovery. -/
theorem c8_witness :
    stClean.genAI = true ∧ stClean.geminiTools = none ∧
    functionCallRequests partsTextW = [] ∧
    C8Concl stClean "SIG123" "What fee was paid?" [] (MCPAttempt.ok []) partsTextW invokeW resp2W :=
  ⟨rfl, rfl, by decide,
    c8_theorem stClean "SIG123" "What fee was paid?" [] (MCPAttempt.ok []) partsTextW invokeW
      resp2W rfl rfl (by decide) (Or.inr (Or.inr (Or.inr (Or.inl rfl))))⟩

/-- Claim C9: for each of the four supported language codes, both prompt
builders return a non-empty string containing the transaction signature
verbatim; every unrecognized code deterministically yields the en-US
templates, never an error. -/
theorem c9_theorem (signature userMessage : String) (hist : List ChatMessage)
    (language : String) : C9Concl signature userMessage hist language := by
  unfold C9Concl
  constructor
  · intro h
    rcases h with h | h | h | h <;> subst h
    · rw [show getTransactionSummaryPrompt signature "zh-CN" = summaryPromptZh signature from rfl,
          show getChatPrompt signature userMessage hist "zh-CN" =
            chatPromptZh signature userMessage hist from rfl]
      unfold summaryPromptZh chatPromptZh
      exact ⟨str_append_ne_empty "请分析这个Solana交易签名：" _ (by decide), ⟨_, _, rfl⟩,
             str_append_ne_empty "你正在分析Solana交易签名：" _ (by decide), exists_decomp_chat _ _ _ _ _ _ _⟩
    · rw [show getTransactionSummaryPrompt signature "en-US" = summaryPromptEn signature from rfl,
          show getChatPrompt signature userMessage hist "en-US" =
            chatPromptEn signature userMessage hist from rfl]
      unfold summaryPromptEn chatPromptEn
      exact ⟨str_append_ne_empty "Please analyze this Solana transaction signature: " _ (by decide), ⟨_, _, rfl⟩,
             str_append_ne_empty "You are analyzing a Solana transaction signature: " _ (by decide), exists_decomp_chat _ _ _ _ _ _ _⟩
    · rw [show getTransactionSummaryPrompt signature "ja-JP" = summaryPromptJa signature from rfl,
          show getChatPrompt signature userMessage hist "ja-JP" =
            chatPromptJa signature userMessage hist from rfl]
      unfold summaryPromptJa chatPromptJa
      exact ⟨str_append_ne_empty "このSolana取引署名を分析してください：" _ (by decide), ⟨_, _, rfl⟩,
             str_append_ne_empty "Solana取引署名を分析しています：" _ (by decide), exists_decomp_chat _ _ _ _ _ _ _⟩
    · rw [show getTransactionSummaryPrompt signature "ko-KR" = summaryPromptKo signature from rfl,
          show getChatPrompt signature userMessage hist "ko-KR" =
            chatPromptKo signature userMessage hist from rfl]
      unfold summaryPromptKo chatPromptKo
      exact ⟨str_append_ne_empty "이 Solana 거래 서명을 분석하십시오: " _ (by decide), ⟨_, _, rfl⟩,
             str_append_ne_empty "Solana 거래 서명을 분석하고 있습니다: " _ (by decide), exists_decomp_chat _ _ _ _ _ _ _⟩
  · intro h
    push_neg at h
    obtain ⟨h1, h2, h3, h4⟩ := h
    have eS : getTransactionSummaryPrompt signature "en-US" = summaryPromptEn signature := rfl
    have eC : getChatPrompt signature userMessage hist "en-US" =
        chatPromptEn signature userMessage hist := rfl
    rw [eS, eC]
    unfold getTransactionSummaryPrompt getChatPrompt
    rw [if_neg h1, if_neg h2, if_neg h3, if_neg h4,
        if_neg h1, if_neg h2, if_neg h3, if_neg h4]
    exact ⟨rfl, rfl⟩

/-- Witness for C9 at a concrete unsupported language code. -/
theorem c9_witness :
    C9Concl "SIG123" "What fee was paid?" [] "fr-FR" :=
  c9_theorem "SIG123" "What fee was paid?" [] "fr-FR"

/-- Claim C10: a discovery attempt that constructs the client and then
fails at connect or list-tools latches the failure — the client handle
stays assigned without any tools, every later discovery call (including
the one reloadSettings runs) returns immediately without contacting the
tool service and without tools, and only reloadMCPTools, which nulls the
client handle, the tool list and the converted schema, enables a fresh
contacting discovery. -/
theorem c10_theorem (st0 : AState) (att1 att2 : MCPAttempt) (ns : Settings)
    (tools : List MCPTool)
    (hc : st0.mcpClient = false)
    (hu : st0.settings.mcpUrl ≠ "")
    (h1 : att1 = MCPAttempt.connectFail ∨ att1 = MCPAttempt.listFail) :
    C10Concl st0 att1 att2 ns tools := by
  have hst1 : loadMCPTools st0 att1 = ({ st0 with mcpClient := true }, true) := by
    rcases h1 with h | h <;> subst h <;> simp [loadMCPTools, hu, hc]
  have hlatch := loadMCPTools_latched { st0 with mcpClient := true } att2 rfl
  have hfields := initGemini_fields { st0 with mcpClient := true, settings := ns }
  have hlatch2 := loadMCPTools_latched
    (initGemini { st0 with mcpClient := true, settings := ns }) att2
    (by rw [hfields.1])
  simp only [C10Concl]
  rw [hst1]
  refine ⟨rfl, rfl, rfl, rfl, hlatch, ?_, ?_, ?_, ?_, ?_⟩
  · unfold reloadSettings
    rw [show ({ ({ st0 with mcpClient := true } : AState) with settings := ns } : AState) = { st0 with mcpClient := true, settings := ns } from rfl]
    rw [hlatch2]
  · unfold reloadSettings
    rw [show ({ ({ st0 with mcpClient := true } : AState) with settings := ns } : AState) = { st0 with mcpClient := true, settings := ns } from rfl]
    rw [hlatch2]
    exact hfields.1
  · unfold reloadSettings
    rw [show ({ ({ st0 with mcpClient := true } : AState) with settings := ns } : AState) = { st0 with mcpClient := true, settings := ns } from rfl]
    rw [hlatch2]
    exact hfields.2.1
  · unfold reloadSettings
    rw [show ({ ({ st0 with mcpClient := true } : AState) with settings := ns } : AState) = { st0 with mcpClient := true, settings := ns } from rfl]
    rw [hlatch2]
    exact hfields.2.2.1
  · unfold reloadMCPTools
    simp [loadMCPTools, hu]

/-- Witness for C10 at a concrete failed connect attempt. -/
theorem c10_witness :
    stClean.mcpClient = false ∧ stClean.settings.mcpUrl ≠ "" ∧
    (MCPAttempt.connectFail = MCPAttempt.connectFail ∨ MCPAttempt.connectFail = MCPAttempt.listFail) ∧
    C10Concl stClean MCPAttempt.connectFail MCPAttempt.connectFail settingsW [toolW] :=
  ⟨rfl, by decide, Or.inl rfl,
    c10_theorem stClean MCPAttempt.connectFail MCPAttempt.connectFail settingsW [toolW]
      rfl (by decide) (Or.inl rfl)⟩
